import Mathlib

/-!
Verification of the `cattle` fleet-telemetry scaffold (cattle-common,
cattle-herder, cattle-monitor) against its natural-language specification.

The Rust sources are shallowly embedded here:
* pure data (config modes, wire message shapes) becomes Lean structures and
  inductives with the source's names;
* the stateful snapshot engine (`CattleState::system_update`,
  `initial_info`, `periodic_update` in cattle-herder/src/main.rs) becomes
  functions over an explicit `SystemState` (the locked `sysinfo::System`
  contents) and an `Env` (lock acquisition outcomes, the disk list
  re-enumerated inside each call, and the OS user database);
* Rust panics (`unwrap`, slice indexing, `panic!`) become a distinct
  `panicked` outcome, and `bail!` becomes a typed `err` outcome, so the two
  failure channels of the source stay distinguishable;
* machine integers (`u64` byte counts, pids) are modelled as `Nat` (no sum
  in the claims is near overflow), and `f32` CPU percentages as `ℚ`, whose
  order structure is all the source relies on (comparisons and averaging).
-/

namespace Cattle

/-! ### cattle-common/src/lib.rs: configuration modes -/

/-- Struct `CattlePush` from cattle-common: agent dials out to `server:port` every
`interval_seconds`. -/
structure CattlePush where
  server : String
  port : Nat
  interval_seconds : Nat
deriving DecidableEq

/-- Struct `Pull` from cattle-common: listen on a port for inbound connections. -/
structure Pull where
  listen : Nat
deriving DecidableEq

/-- Struct `HerderPolls` from cattle-common: the herder polls each listed cattle
host every `interval_seconds`. -/
structure HerderPolls where
  cattle : List String
  interval_seconds : Nat
deriving DecidableEq

/-- Enum `Mode` from cattle-common: exactly one of Push / Pull / Poll. -/
inductive Mode where
  | Push : CattlePush → Mode
  | Pull : Pull → Mode
  | Poll : HerderPolls → Mode
deriving DecidableEq

/-! ### Identity store (cattle-herder/src/main.rs, `impl Default for CattleState`)

The UUID portion of `CattleState::default` reads the identity file when it
exists and otherwise generates and persists a fresh UUID.  `uuid::Uuid` is
16 raw bytes; `Uuid::from_slice` succeeds exactly when the slice has
length 16 (any 16 byte values form a valid UUID), and `Uuid::as_bytes`
returns those 16 bytes. -/

/-- A UUID: exactly 16 bytes, as in `uuid::Uuid`. -/
def Uuid : Type := { l : List Nat // l.length = 16 }

instance : DecidableEq Uuid := fun a b =>
  decidable_of_iff (a.val = b.val) Subtype.ext_iff.symm

/-- A concrete UUID used to instantiate theorems. -/
def uuid0 : Uuid := ⟨List.replicate 16 7, by simp⟩

/-- Outcome of the identity-loading code.  The Rust function returns `Self`
and has no error channel at all: every failure there is a `panic!`
(via `unwrap_or_else`), which aborts the process. -/
inductive IdentityOutcome where
  | ok : Uuid → IdentityOutcome
  | panicked : String → IdentityOutcome
deriving DecidableEq

/-- The identity file contents: `none` when the path does not exist,
`some bytes` when it does (a successful `std::fs::read`; an existing but
unreadable file panics with its own message and is not in any claim). -/
def IdFileState : Type := Option (List Nat)

/-- The UUID branch of `CattleState::default` (cattle-herder main.rs
lines 58-70), the spec's `load_or_create`.  `fresh` stands for the
`Uuid::new_v4()` draw, `writable` for whether `std::fs::write` to
`ID_FILE` succeeds.  Returns the outcome together with the identity file
contents after the call. -/
def load_or_create (fresh : Uuid) (writable : Bool) (fs : IdFileState) :
    IdentityOutcome × IdFileState :=
  match fs with
  | some bytes =>
    -- `Uuid::from_slice(&uuid)` fails exactly when `bytes.length ≠ 16`.
    if h : bytes.length = 16 then (.ok ⟨bytes, h⟩, some bytes)
    else (.panicked "failed to parse ID from file", some bytes)
  | none =>
    if writable then (.ok fresh, some fresh.val)
    else (.panicked "failed to save UUID", none)

/-! ### Startup mode validation (both binaries' `main`) -/

/-- What the cattle (herder binary) `main` does after config parsing:
the mode check precedes construction of `CattleState` and the
initial-info snapshot. -/
inductive MainEvent where
  | stateInit
  | initialInfoPrinted
deriving DecidableEq

/-- cattle-herder `main` after config parsing (lines 183-190): bail on
`Poll`, otherwise build the state and print the initial info. -/
def cattle_main (m : Mode) : Except String (List MainEvent) :=
  match m with
  | .Poll _ => .error "Error: this is the Cattle application, Poll mode not acceptable."
  | _ => .ok [.stateInit, .initialInfoPrinted]

/-- cattle-monitor `main` after config parsing (lines 38-42): bail on
`Push`, otherwise return success (the monitor currently does nothing
further). -/
def monitor_main (m : Mode) : Except String (List MainEvent) :=
  match m with
  | .Push _ => .error "Error: this is the Herder application, Push mode not acceptable."
  | _ => .ok []

/-! ### System Snapshot Engine (cattle-herder/src/main.rs, `impl CattleState`)

The engine holds an `Arc<RwLock<sysinfo::System>>`.  We model the locked
`System` contents as `SystemState`, and the per-call environment (whether
the write/read lock acquisitions succeed, the disk list produced by
`Disks::new_with_refreshed_list()`, and the OS user database consulted by
`users::get_user_by_uid`) as `Env`. -/

/-- One entry of `sysinfo`'s process table.  `user_id` models
`Process::user_id() : Option<&Uid>`; `name` models
`Process::name().to_str() : Option<&str>` (`none` = not valid UTF-8). -/
structure Process where
  pid : Nat
  cpu_usage : ℚ
  user_id : Option Nat
  name : Option String
deriving DecidableEq

/-- One entry of `sysinfo`'s CPU list. -/
structure CpuState where
  usage : ℚ
  brand : String
  name : String
deriving DecidableEq

/-- One mounted disk as reported by `Disks::new_with_refreshed_list()`. -/
structure Disk where
  total_space : Nat
  available_space : Nat
deriving DecidableEq

/-- The locked `sysinfo::System` contents plus the host facts read through
`System::` statics inside the same call (`name`, `host_name`,
`os_version`, `long_os_version`, `uptime`): `none` models an unavailable
fact. -/
structure SystemState where
  processes : List Process
  cpus : List CpuState
  total_memory : Nat
  available_memory : Nat
  os_name : Option String
  host_name : Option String
  os_version : Option String
  long_os_version : Option String
  uptime : Nat
deriving DecidableEq

/-- Per-call environment: lock acquisition outcomes, the freshly
enumerated disk list, and the user database (`uid` to the result of
`get_user_by_uid(uid).name().to_str()`; the inner `none` models a user
record whose name is not valid UTF-8). -/
structure Env where
  writeLockOk : Bool
  readLockOk : Bool
  disks : List Disk
  users : List (Nat × Option String)
deriving DecidableEq

/-- Lookup `users::get_user_by_uid` composed with `.name().to_str()`. -/
def lookupUser (users : List (Nat × Option String)) (uid : Nat) :
    Option (Option String) :=
  (users.find? (fun e => e.1 = uid)).map (fun e => e.2)

/-- Lookup `sysinfo::System::process(pid)`: lookup in the process table. -/
def lookupProc (ps : List Process) (pid : Nat) : Option Process :=
  ps.find? (fun p => p.pid = pid)

/-- Sampler `sysinfo::System::global_cpu_usage()`: the average of the per-CPU
usage percentages (modelled from the sysinfo contract; each per-CPU usage
is a percentage in `[0, 100]`). -/
def global_cpu_usage (st : SystemState) : ℚ :=
  (st.cpus.map (fun c => c.usage)).sum / (st.cpus.length : ℚ)

/-- The spec's error taxonomy name for a failed lock acquisition; the
source raises it via `bail!` with the recorded message. -/
inductive HerderError where
  | snapshotUnavailable : String → HerderError
deriving DecidableEq

/-- Outcome of a snapshot-engine call: a typed `bail!` error, a Rust
panic (`unwrap` and friends), or success. -/
inductive RunResult (α : Type) where
  | ok : α → RunResult α
  | err : HerderError → RunResult α
  | panicked : String → RunResult α
deriving DecidableEq

/-- The refresh operations `system_update` performs on the locked
`System`, in order. -/
inductive SysEvent where
  | refreshAll
  | refreshCpuAll
  | sleepMinCpuInterval
deriving DecidableEq

/-- The dual-refresh trace: full refresh, CPU refresh, blocking sleep of
`sysinfo::MINIMUM_CPU_UPDATE_INTERVAL`, second CPU refresh. -/
def dualRefreshTrace : List SysEvent :=
  [.refreshAll, .refreshCpuAll, .sleepMinCpuInterval, .refreshCpuAll]

/-- Function `CattleState::system_update` (lines 94-107): acquire the write lock or
bail; on success perform the dual-refresh sequence. -/
def system_update (env : Env) : RunResult (List SysEvent) :=
  if env.writeLockOk then .ok dualRefreshTrace
  else .err (.snapshotUnavailable "Failed to get read-write lock on System")

/-- The report constructed by `initial_info`.  The field set follows the
constructing site in cattle-herder (`os_name` and `hostname`; the
cattle-common declaration of `CattleInitialConnect` spells the hostname
field `name` and lacks `os_name` — the two crates are out of sync and we
follow the constructor, which also matches the spec's field list). -/
structure CattleInitialConnect where
  os_name : String
  hostname : String
  id : Uuid
  os_version : String
  os_version_long : String
  ram_bytes : Nat
  disk_bytes : Nat
  cpu_count : Nat
  cpu_brand : String
  cpu_name : String
  uptime : Nat
deriving DecidableEq

/-- Struct `CattleUpdate` from cattle-common. -/
structure CattleUpdate where
  cpu_utilization : ℚ
  available_memory_bytes : Nat
  available_disk_bytes : Nat
  running_processes : Nat
  most_intense_process_name : String
  most_intense_process_owner : String
deriving DecidableEq

/-- Function `CattleState::initial_info` (lines 109-132): dual refresh via
`system_update`, then under the read lock sum `total_space` over all
disks and build the report.  Field initialisers are evaluated in the
written order, so the `host_name().unwrap()` panic fires before the
`cpus()[0]` index panic.  Returns the refresh trace with the report. -/
def initial_info (id : Uuid) (st : SystemState) (env : Env) :
    RunResult (List SysEvent × CattleInitialConnect) :=
  match system_update env with
  | .err e => .err e
  | .panicked m => .panicked m
  | .ok tr =>
    if env.readLockOk then
      let disk_bytes := (env.disks.map (fun d => d.total_space)).sum
      match st.host_name with
      | none => .panicked "called Option::unwrap on a None value (host_name)"
      | some hn =>
        match st.cpus with
        | [] => .panicked "index out of bounds: cpus is empty"
        | c :: _ =>
          .ok (tr,
            { os_name := st.os_name.getD ""
              hostname := hn
              id := id
              os_version := st.os_version.getD ""
              os_version_long := st.long_os_version.getD ""
              ram_bytes := st.total_memory
              disk_bytes := disk_bytes
              cpu_count := st.cpus.length
              cpu_brand := c.brand
              cpu_name := c.name
              uptime := st.uptime })
    else .err (.snapshotUnavailable "Failed to get a lock on system information handle")

/-- One iteration of the top-CPU selection loop of `periodic_update`
(lines 141-148): the candidate `(pid, usage)` is replaced only on a
strict increase (`process.cpu_usage() > biggest_process_usage`). -/
def selStep (acc : Nat × ℚ) (p : Process) : Nat × ℚ :=
  if acc.2 < p.cpu_usage then (p.pid, p.cpu_usage) else acc

/-- The whole selection loop: fold `selStep` over the process table
starting from the sentinel `(Pid::from_u32(0), 0f32)`. -/
def selectTop (ps : List Process) : Nat × ℚ :=
  ps.foldl selStep (0, 0)

/-- Function `CattleState::periodic_update` (lines 134-171): dual refresh, then
under the read lock sum `available_space` over all disks, select the
top-CPU process, resolve its owner through four consecutive `unwrap`s
(process lookup, `user_id()`, `get_user_by_uid`, owner-name UTF-8) and
its name through one more, and build the report. -/
def periodic_update (st : SystemState) (env : Env) :
    RunResult (List SysEvent × CattleUpdate) :=
  match system_update env with
  | .err e => .err e
  | .panicked m => .panicked m
  | .ok tr =>
    if env.readLockOk then
      let available_bytes := (env.disks.map (fun d => d.available_space)).sum
      let sel := selectTop st.processes
      match lookupProc st.processes sel.1 with
      | none => .panicked "called Option::unwrap on a None value (process lookup)"
      | some proc =>
        match proc.user_id with
        | none => .panicked "called Option::unwrap on a None value (user_id)"
        | some uid =>
          match lookupUser env.users uid with
          | none => .panicked "called Option::unwrap on a None value (get_user_by_uid)"
          | some ownerName =>
            match ownerName with
            | none => .panicked "called Option::unwrap on a None value (owner name to_str)"
            | some owner =>
              match proc.name with
              | none => .panicked "called Option::unwrap on a None value (process name to_str)"
              | some pname =>
                .ok (tr,
                  { cpu_utilization := global_cpu_usage st
                    available_memory_bytes := st.available_memory
                    available_disk_bytes := available_bytes
                    running_processes := st.processes.length
                    most_intense_process_name := pname
                    most_intense_process_owner := owner })
    else .err (.snapshotUnavailable "Failed to get a lock on system information handle")

/-! ### Message Codec

Modelled from the spec: the repository defines the wire vocabulary
(`Message`, `MessageType` in cattle-common) but contains no `encode` /
`decode` functions — serialization is only declared through serde derives
with no format chosen anywhere in src/.  Following the spec's codec
contract (§4.3: a tagged, length-prefixed, binary-safe format; `encode`
total on well-formed values; `decode` partial, rejecting truncated or
unrecognized input), we fix a concrete format over a `List Nat` wire:
each variant is a tag followed by its payload fields in declaration
order; byte strings and text are length-prefixed; integers carry a sign
tag; rationals (the `f32` field) are numerator/denominator pairs. -/

/-- Enum `MessageType` from cattle-common: the four wire variants. -/
inductive MessageType where
  | SendPublicKey : List Nat → MessageType
  | RequestUpdate : MessageType
  | SendUpdate : CattleUpdate → MessageType
  | SendInitialInfo : CattleInitialConnect → MessageType
deriving DecidableEq

/-- Struct `Message` from cattle-common: a newtype around `MessageType`. -/
structure Message where
  mt : MessageType
deriving DecidableEq

/-- Modelled from the spec: length-prefixed raw byte payload. -/
def encBytes (bs : List Nat) : List Nat := bs.length :: bs

/-- Decoder for `encBytes`; consumes its frame and returns the rest. -/
def decBytes (l : List Nat) : Option (List Nat × List Nat) :=
  match l with
  | [] => none
  | n :: rest =>
    if n ≤ rest.length then some (rest.take n, rest.drop n) else none

/-- Modelled from the spec: an unsigned integer is one wire element. -/
def encNat (n : Nat) : List Nat := [n]

/-- Decoder for `encNat`. -/
def decNat (l : List Nat) : Option (Nat × List Nat) :=
  match l with
  | [] => none
  | n :: rest => some (n, rest)

/-- Modelled from the spec: sign tag then magnitude. -/
def encInt (i : Int) : List Nat :=
  [if i < 0 then 1 else 0, i.natAbs]

/-- Decoder for `encInt`. -/
def decInt (l : List Nat) : Option (Int × List Nat) :=
  match l with
  | s :: n :: rest =>
    if s = 1 then some (-(n : Int), rest)
    else if s = 0 then some ((n : Int), rest)
    else none
  | _ => none

/-- Modelled from the spec: the `f32` CPU percentage field travels as an
exact numerator/denominator pair. -/
def encRat (q : ℚ) : List Nat := encInt q.num ++ [q.den]

/-- Decoder for `encRat`. -/
def decRat (l : List Nat) : Option (ℚ × List Nat) :=
  match decInt l with
  | none => none
  | some (n, rest) =>
    match rest with
    | [] => none
    | d :: rest => some ((n : ℚ) / (d : ℚ), rest)

/-- Modelled from the spec: text is a length prefix followed by its
character codes. -/
def encString (s : String) : List Nat := s.length :: s.data.map Char.toNat

/-- Decoder for `encString`. -/
def decString (l : List Nat) : Option (String × List Nat) :=
  match l with
  | [] => none
  | n :: rest =>
    if n ≤ rest.length then
      some (String.mk ((rest.take n).map Char.ofNat), rest.drop n)
    else none

/-- Modelled from the spec: a UUID is its 16 raw bytes. -/
def encUuid (u : Uuid) : List Nat := u.val

/-- Decoder for `encUuid`. -/
def decUuid (l : List Nat) : Option (Uuid × List Nat) :=
  if h : 16 ≤ l.length then
    some (⟨l.take 16, by simp [List.length_take]; omega⟩, l.drop 16)
  else none

/-- Modelled from the spec: `CattleUpdate` fields in declaration order. -/
def encUpdate (u : CattleUpdate) : List Nat :=
  encRat u.cpu_utilization ++ encNat u.available_memory_bytes ++
    encNat u.available_disk_bytes ++ encNat u.running_processes ++
    encString u.most_intense_process_name ++
    encString u.most_intense_process_owner

/-- Decoder for `encUpdate`. -/
def decUpdate (l : List Nat) : Option (CattleUpdate × List Nat) :=
  match decRat l with
  | none => none
  | some (cpu, l) =>
    match decNat l with
    | none => none
    | some (mem, l) =>
      match decNat l with
      | none => none
      | some (disk, l) =>
        match decNat l with
        | none => none
        | some (procs, l) =>
          match decString l with
          | none => none
          | some (pname, l) =>
            match decString l with
            | none => none
            | some (owner, l) =>
              some ({ cpu_utilization := cpu
                      available_memory_bytes := mem
                      available_disk_bytes := disk
                      running_processes := procs
                      most_intense_process_name := pname
                      most_intense_process_owner := owner }, l)

/-- Modelled from the spec: `CattleInitialConnect` fields in declaration
order. -/
def encInitial (r : CattleInitialConnect) : List Nat :=
  encString r.os_name ++ encString r.hostname ++ encUuid r.id ++
    encString r.os_version ++ encString r.os_version_long ++
    encNat r.ram_bytes ++ encNat r.disk_bytes ++ encNat r.cpu_count ++
    encString r.cpu_brand ++ encString r.cpu_name ++ encNat r.uptime

/-- Decoder for `encInitial`. -/
def decInitial (l : List Nat) : Option (CattleInitialConnect × List Nat) :=
  match decString l with
  | none => none
  | some (osn, l) =>
    match decString l with
    | none => none
    | some (hn, l) =>
      match decUuid l with
      | none => none
      | some (id, l) =>
        match decString l with
        | none => none
        | some (osv, l) =>
          match decString l with
          | none => none
          | some (osvl, l) =>
            match decNat l with
            | none => none
            | some (ram, l) =>
              match decNat l with
              | none => none
              | some (disk, l) =>
                match decNat l with
                | none => none
                | some (cpus, l) =>
                  match decString l with
                  | none => none
                  | some (brand, l) =>
                    match decString l with
                    | none => none
                    | some (cname, l) =>
                      match decNat l with
                      | none => none
                      | some (up, l) =>
                        some ({ os_name := osn
                                hostname := hn
                                id := id
                                os_version := osv
                                os_version_long := osvl
                                ram_bytes := ram
                                disk_bytes := disk
                                cpu_count := cpus
                                cpu_brand := brand
                                cpu_name := cname
                                uptime := up }, l)

/-- Modelled from the spec: `encode` — variant tag then payload.  Total:
it never fails on a well-formed `Message`. -/
def encode (m : Message) : List Nat :=
  match m.mt with
  | .SendPublicKey bs => 0 :: encBytes bs
  | .RequestUpdate => [1]
  | .SendUpdate u => 2 :: encUpdate u
  | .SendInitialInfo r => 3 :: encInitial r

/-- Modelled from the spec: `decode` — rejects (`none`, the spec's
`MalformedMessage`) empty input, unrecognized tags, truncated payloads
and trailing garbage. -/
def decode (l : List Nat) : Option Message :=
  match l with
  | [] => none
  | tag :: rest =>
    if tag = 0 then
      match decBytes rest with
      | some (bs, []) => some ⟨.SendPublicKey bs⟩
      | _ => none
    else if tag = 1 then
      match rest with
      | [] => some ⟨.RequestUpdate⟩
      | _ => none
    else if tag = 2 then
      match decUpdate rest with
      | some (u, []) => some ⟨.SendUpdate u⟩
      | _ => none
    else if tag = 3 then
      match decInitial rest with
      | some (r, []) => some ⟨.SendInitialInfo r⟩
      | _ => none
    else none

/-! ### Codec round-trip lemmas -/

theorem decBytes_enc (bs r : List Nat) :
    decBytes (encBytes bs ++ r) = some (bs, r) := by
  simp only [encBytes, decBytes, List.cons_append]
  rw [if_pos (by simp)]
  rw [show bs.length = ((bs ++ r).take bs.length).length by
        simp [List.length_take]]
  simp [List.take_left, List.drop_left]

theorem decNat_enc (n : Nat) (r : List Nat) :
    decNat (encNat n ++ r) = some (n, r) := rfl

theorem decInt_enc (i : Int) (r : List Nat) :
    decInt (encInt i ++ r) = some (i, r) := by
  by_cases h : i < 0
  · have hi : -((i.natAbs : Nat) : Int) = i := by omega
    rw [show encInt i = [1, i.natAbs] by simp [encInt, h]]
    show decInt (1 :: i.natAbs :: r) = some (i, r)
    rw [show decInt (1 :: i.natAbs :: r) = some (-((i.natAbs : Nat) : Int), r) from rfl]
    rw [hi]
  · have hi : ((i.natAbs : Nat) : Int) = i := by omega
    rw [show encInt i = [0, i.natAbs] by simp [encInt, h]]
    show decInt (0 :: i.natAbs :: r) = some (i, r)
    rw [show decInt (0 :: i.natAbs :: r) = some (((i.natAbs : Nat) : Int), r) from rfl]
    rw [hi]

theorem decRat_enc (q : ℚ) (r : List Nat) :
    decRat (encRat q ++ r) = some (q, r) := by
  simp only [encRat, List.append_assoc, List.cons_append, List.nil_append,
    decRat, decInt_enc]
  rw [Rat.num_div_den]

theorem decString_enc (s : String) (r : List Nat) :
    decString (encString s ++ r) = some (s, r) := by
  have hl : s.length = (s.data.map Char.toNat).length := by
    rw [List.length_map]; rfl
  simp only [encString, decString, List.cons_append]
  rw [if_pos (by rw [hl, List.length_append]; omega)]
  rw [hl, List.take_left, List.drop_left, List.map_map]
  have hmap : s.data.map (Char.ofNat ∘ Char.toNat) = s.data := by
    simp [Function.comp_def, Char.ofNat_toNat]
  rw [hmap]

theorem decUuid_enc (u : Uuid) (r : List Nat) :
    decUuid (encUuid u ++ r) = some (u, r) := by
  obtain ⟨l, hl⟩ := u
  show decUuid (l ++ r) = some (⟨l, hl⟩, r)
  simp only [decUuid]
  rw [dif_pos (by rw [List.length_append]; omega)]
  congr 1
  refine Prod.ext (Subtype.ext ?_) ?_
  · show (l ++ r).take 16 = l
    rw [← hl]
    exact List.take_left l r
  · show (l ++ r).drop 16 = r
    rw [← hl]
    exact List.drop_left l r

theorem decUpdate_enc (u : CattleUpdate) (r : List Nat) :
    decUpdate (encUpdate u ++ r) = some (u, r) := by
  simp only [encUpdate, List.append_assoc, decUpdate, decRat_enc,
    decNat_enc, decString_enc]

theorem decInitial_enc (c : CattleInitialConnect) (r : List Nat) :
    decInitial (encInitial c ++ r) = some (c, r) := by
  simp only [encInitial, List.append_assoc, decInitial, decString_enc,
    decUuid_enc, decNat_enc]

/-- C5: for every value of the four `Message` variants (`SendPublicKey`,
`RequestUpdate`, `SendUpdate`, `SendInitialInfo`), encoding then decoding
round-trips — `decode (encode m) = some m` — and `encode` is a total
function, never failing on a well-formed `Message`. -/
theorem message_codec_roundtrip (m : Message) : decode (encode m) = some m := by
  obtain ⟨mt⟩ := m
  cases mt with
  | SendPublicKey bs =>
    have h := decBytes_enc bs []
    rw [List.append_nil] at h
    simp [encode, decode, h]
  | RequestUpdate => rfl
  | SendUpdate u =>
    have h := decUpdate_enc u []
    rw [List.append_nil] at h
    simp [encode, decode, h]
  | SendInitialInfo c =>
    have h := decInitial_enc c []
    rw [List.append_nil] at h
    simp [encode, decode, h]

/-! ### Top-process selection lemmas -/

/-- Folding over processes whose usage is all below `c` keeps the
accumulated usage below `c`. -/
theorem foldl_selStep_lt (l : List Process) (acc : Nat × ℚ) (c : ℚ)
    (hl : ∀ q ∈ l, q.cpu_usage < c) (ha : acc.2 < c) :
    (l.foldl selStep acc).2 < c := by
  induction l generalizing acc with
  | nil => exact ha
  | cons q l ih =>
    rw [List.foldl_cons]
    refine ih (selStep acc q) (fun p hp => hl p (List.mem_cons_of_mem q hp)) ?_
    have hq := hl q (List.mem_cons_self q l)
    by_cases h : acc.2 < q.cpu_usage
    · simpa [selStep, h] using hq
    · simpa [selStep, h] using ha

/-- Folding over processes whose usage never strictly exceeds the
accumulated usage leaves the accumulator unchanged. -/
theorem foldl_selStep_const (l : List Process) (acc : Nat × ℚ)
    (hl : ∀ q ∈ l, q.cpu_usage ≤ acc.2) :
    l.foldl selStep acc = acc := by
  induction l with
  | nil => rfl
  | cons q l ih =>
    have hq : ¬ acc.2 < q.cpu_usage :=
      not_lt.mpr (hl q (List.mem_cons_self q l))
    have hstep : selStep acc q = acc := by simp [selStep, hq]
    rw [List.foldl_cons, hstep]
    exact ih fun p hp => hl p (List.mem_cons_of_mem q hp)

/-- C4 (amended): in every process table whose highest CPU usage is
strictly positive, the selection loop picks the first process in table
iteration order attaining that highest usage (processes before it are
strictly below, processes after it do not exceed it); the selection is a
pure function of the table, so repeated selection over an unchanged table
returns the same process.  (The amendment restricts the original claim to
a strictly positive maximum: when all processes tie at usage `0`, the
`(pid 0, 0)` sentinel survives the whole loop and no process is picked —
see the counterexample.) -/
theorem selectTop_picks_first_max (pre post : List Process) (p : Process)
    (hpre : ∀ q ∈ pre, q.cpu_usage < p.cpu_usage)
    (hpost : ∀ q ∈ post, q.cpu_usage ≤ p.cpu_usage)
    (hpos : 0 < p.cpu_usage) :
    selectTop (pre ++ p :: post) = (p.pid, p.cpu_usage) := by
  unfold selectTop
  rw [List.foldl_append, List.foldl_cons]
  have h1 : (pre.foldl selStep (0, 0)).2 < p.cpu_usage :=
    foldl_selStep_lt pre (0, 0) p.cpu_usage hpre hpos
  have hstep : ∀ acc : Nat × ℚ, acc.2 < p.cpu_usage →
      selStep acc p = (p.pid, p.cpu_usage) := by
    intro acc hacc
    unfold selStep
    rw [if_pos hacc]
  rw [hstep _ h1]
  exact foldl_selStep_const post (p.pid, p.cpu_usage) hpost

/-- A process with pid 5 and usage 0, for the C4 counterexample. -/
def procTieA : Process := ⟨5, 0, none, none⟩

/-- A process with pid 7 and usage 0, for the C4 counterexample. -/
def procTieB : Process := ⟨7, 0, none, none⟩

/-- C4 counterexample: a table of two processes with equal highest CPU
usage (both at `0`) in which the selection does not pick the first
process in table iteration order — it picks neither, leaving the pid-0
sentinel. -/
theorem selectTop_tie_zero_cex :
    procTieA.cpu_usage = procTieB.cpu_usage ∧
      selectTop [procTieA, procTieB] = (0, 0) ∧
      procTieA.pid ≠ 0 ∧ procTieB.pid ≠ 0 := by
  refine ⟨rfl, ?_, by decide, by decide⟩
  rfl

/-- C4 witness table: a strictly positive two-way tie at the top. -/
theorem selectTop_picks_first_max_witness :
    selectTop [⟨1, 3, none, none⟩, ⟨2, 5, none, none⟩, ⟨3, 5, none, none⟩]
      = (2, 5) := by
  have h := selectTop_picks_first_max [⟨1, 3, none, none⟩]
    [⟨3, 5, none, none⟩] ⟨2, 5, none, none⟩
    (by intro q hq; simp at hq; subst hq; norm_num)
    (by intro q hq; simp at hq; subst hq; norm_num)
    (by norm_num)
  simpa using h

/-- C9: in every process table in which no process has strictly positive
CPU usage (the empty table included), the selection loop leaves the
candidate pid at its sentinel value 0; and if additionally no process in
the table has pid 0, `periodic_update`'s unchecked
`sys.process(pid).unwrap()` panics, aborting the snapshot. -/
theorem periodic_update_zero_cpu_panics (st : SystemState) (env : Env)
    (hzero : ∀ p ∈ st.processes, ¬ 0 < p.cpu_usage) :
    (selectTop st.processes).1 = 0 ∧
      (env.writeLockOk = true → env.readLockOk = true →
        (∀ p ∈ st.processes, p.pid ≠ 0) →
        periodic_update st env =
          .panicked "called Option::unwrap on a None value (process lookup)") := by
  have hsel : selectTop st.processes = (0, 0) :=
    foldl_selStep_const st.processes (0, 0)
      (fun p hp => not_lt.mp (hzero p hp))
  refine ⟨by rw [hsel], fun hw hr hpid => ?_⟩
  have hfind : lookupProc st.processes 0 = none := by
    simp only [lookupProc, List.find?_eq_none, decide_eq_true_eq]
    exact hpid
  simp [periodic_update, system_update, hw, hr, hsel, hfind]

/-- C9 witness system: one process at usage 0 with a nonzero pid. -/
def stZero : SystemState :=
  ⟨[⟨3, 0, some 0, some "a"⟩], [⟨10, "b", "n"⟩], 100, 50,
    some "linux", some "host", some "1", some "1.0", 42⟩

/-- An environment in which both lock acquisitions succeed. -/
def envOk : Env := ⟨true, true, [], []⟩

/-- C9 witness: at `stZero`/`envOk` the sentinel pid survives and the
snapshot aborts with the process-lookup panic. -/
theorem periodic_update_zero_cpu_panics_witness :
    (selectTop stZero.processes).1 = 0 ∧
      periodic_update stZero envOk =
        .panicked "called Option::unwrap on a None value (process lookup)" :=
  ⟨(periodic_update_zero_cpu_panics stZero envOk (by decide)).1,
    (periodic_update_zero_cpu_panics stZero envOk (by decide)).2 rfl rfl
      (by decide)⟩

/-! ### Identity store theorems -/

/-- A malformed (3-byte) identity file. -/
def fsBad : IdFileState := some [1, 2, 3]

/-- C2 counterexample: on a concrete malformed identity file the identity
loader's outcome is a Rust panic — the function returns `Self` and has no
typed error channel at all, so no `IdentityCorrupt` error value is
produced — though the file contents are indeed left unchanged. -/
theorem load_or_create_malformed_cex :
    load_or_create uuid0 true fsBad =
      (.panicked "failed to parse ID from file", some [1, 2, 3]) := rfl

/-- C2 (amended): for every identity file whose contents have the wrong
length (≠ 16 bytes; any 16 bytes parse as a valid UUID, so wrong length
is the only malformed case), `load_or_create` fails by panicking with a
parse diagnostic — aborting the process rather than returning a typed
`IdentityCorrupt` error — and leaves the identity file's contents
unchanged. -/
theorem load_or_create_malformed (u : Uuid) (w : Bool) (bytes : List Nat)
    (h : bytes.length ≠ 16) :
    load_or_create u w (some bytes) =
      (.panicked "failed to parse ID from file", some bytes) := by
  simp [load_or_create, h]

/-- C2 witness: the amended claim at a concrete 2-byte file. -/
theorem load_or_create_malformed_witness :
    [1, 2].length ≠ 16 ∧
      load_or_create uuid0 false (some [1, 2]) =
        (.panicked "failed to parse ID from file", some [1, 2]) :=
  ⟨by decide, load_or_create_malformed uuid0 false [1, 2] (by decide)⟩

/-- C3: identity loading is idempotent and the persisted id never
changes: (i) on every valid (16-byte) persisted file, `load_or_create`
returns exactly the persisted bytes and leaves the file unchanged — so a
second call without deleting the file yields the same id; (ii) on first
run (no file, writable location) the freshly generated UUID's 16 raw
bytes are written and that UUID returned; (iii) every later run — with
any later fresh draw and writability — reads back exactly the UUID
written on first run. -/
theorem load_or_create_idempotent (fresh fresh2 : Uuid) (w w2 : Bool)
    (bytes : List Nat) (h16 : bytes.length = 16) :
    load_or_create fresh w (some bytes) = (.ok ⟨bytes, h16⟩, some bytes) ∧
      load_or_create fresh true none = (.ok fresh, some fresh.val) ∧
      load_or_create fresh2 w2 (some fresh.val) = (.ok fresh, some fresh.val) := by
  refine ⟨?_, by simp [load_or_create], ?_⟩
  · simp only [load_or_create]
    rw [dif_pos h16]
  · obtain ⟨lv, hv⟩ := fresh
    simp only [load_or_create]
    rw [dif_pos hv]

/-- C3 witness: first-run persistence at a concrete fresh UUID, with the
valid-file hypothesis discharged at a concrete 16-byte file. -/
theorem load_or_create_idempotent_witness :
    load_or_create uuid0 true none = (.ok uuid0, some uuid0.val) :=
  (load_or_create_idempotent uuid0 uuid0 true true
    (List.replicate 16 3) (by decide)).2.1

/-! ### Startup mode validation theorem -/

/-- C7: startup mode validation is fatal and role-specific — for every
configuration, the cattle binary refuses `Poll` with an error before any
state initialisation or session activity (its error carries no
`MainEvent`s), and the herder/monitor binary likewise refuses `Push`;
each accepts both other modes. -/
theorem mode_validation (c : HerderPolls) (p : CattlePush) (l : Pull) :
    cattle_main (.Poll c) =
        .error "Error: this is the Cattle application, Poll mode not acceptable." ∧
      cattle_main (.Push p) = .ok [.stateInit, .initialInfoPrinted] ∧
      cattle_main (.Pull l) = .ok [.stateInit, .initialInfoPrinted] ∧
      monitor_main (.Push p) =
        .error "Error: this is the Herder application, Push mode not acceptable." ∧
      monitor_main (.Poll c) = .ok [] ∧
      monitor_main (.Pull l) = .ok [] :=
  ⟨rfl, rfl, rfl, rfl, rfl, rfl⟩

/-! ### Snapshot-engine inversion lemmas -/

/-- Every successful `periodic_update` carries the dual-refresh trace and
a report whose fields are exactly the sampled quantities. -/
theorem periodic_update_ok_inv (st : SystemState) (env : Env)
    (tr : List SysEvent) (u : CattleUpdate)
    (h : periodic_update st env = .ok (tr, u)) :
    tr = dualRefreshTrace ∧
      u.cpu_utilization = global_cpu_usage st ∧
      u.available_memory_bytes = st.available_memory ∧
      u.available_disk_bytes = (env.disks.map (fun d => d.available_space)).sum ∧
      u.running_processes = st.processes.length := by
  by_cases hw : env.writeLockOk
  · by_cases hr : env.readLockOk
    · simp only [periodic_update, system_update, hw, hr, if_true] at h
      split at h
      · exact absurd h (by simp)
      split at h
      · exact absurd h (by simp)
      split at h
      · exact absurd h (by simp)
      split at h
      · exact absurd h (by simp)
      split at h
      · exact absurd h (by simp)
      rw [RunResult.ok.injEq, Prod.mk.injEq] at h
      obtain ⟨htr, hu⟩ := h
      subst htr
      subst hu
      exact ⟨rfl, rfl, rfl, rfl, rfl⟩
    · simp [periodic_update, system_update, hw, hr] at h
  · simp [periodic_update, system_update, hw] at h

/-- Every successful `initial_info` carries the dual-refresh trace and a
report whose fields are exactly the sampled host facts, with the empty
string substituted for each unavailable OS fact. -/
theorem initial_info_ok_inv (id : Uuid) (st : SystemState) (env : Env)
    (tr : List SysEvent) (r : CattleInitialConnect)
    (h : initial_info id st env = .ok (tr, r)) :
    tr = dualRefreshTrace ∧
      r.disk_bytes = (env.disks.map (fun d => d.total_space)).sum ∧
      r.os_name = st.os_name.getD "" ∧
      r.os_version = st.os_version.getD "" ∧
      r.os_version_long = st.long_os_version.getD "" ∧
      r.ram_bytes = st.total_memory ∧
      r.cpu_count = st.cpus.length ∧
      r.id = id ∧
      r.uptime = st.uptime := by
  by_cases hw : env.writeLockOk
  · by_cases hr : env.readLockOk
    · simp only [initial_info, system_update, hw, hr, if_true] at h
      split at h
      · exact absurd h (by simp)
      split at h
      · exact absurd h (by simp)
      rw [RunResult.ok.injEq, Prod.mk.injEq] at h
      obtain ⟨htr, hrr⟩ := h
      subst htr
      subst hrr
      exact ⟨rfl, rfl, rfl, rfl, rfl, rfl, rfl, rfl, rfl⟩
    · simp [initial_info, system_update, hw, hr] at h
  · simp [initial_info, system_update, hw] at h

/-! ### Snapshot-engine claim theorems -/

/-- C6: every snapshot operation (`initial_info` and `periodic_update`)
follows the dual-refresh discipline — full refresh, CPU refresh, the
fixed minimum settling sleep, second CPU refresh — sums capacities
across all mounted disks (`total_space` for the initial report,
`available_space` for the periodic one), and fails with the
`SnapshotUnavailable` error whenever either internal system-state lock
acquisition fails. -/
theorem snapshot_dual_refresh_disk_sums_lock (id : Uuid) (st : SystemState)
    (env : Env) :
    (env.writeLockOk = false →
        initial_info id st env =
            .err (.snapshotUnavailable "Failed to get read-write lock on System") ∧
          periodic_update st env =
            .err (.snapshotUnavailable "Failed to get read-write lock on System")) ∧
      (env.writeLockOk = true → env.readLockOk = false →
        initial_info id st env =
            .err (.snapshotUnavailable "Failed to get a lock on system information handle") ∧
          periodic_update st env =
            .err (.snapshotUnavailable "Failed to get a lock on system information handle")) ∧
      (∀ tr r, initial_info id st env = .ok (tr, r) →
        tr = dualRefreshTrace ∧
          r.disk_bytes = (env.disks.map (fun d => d.total_space)).sum) ∧
      (∀ tr u, periodic_update st env = .ok (tr, u) →
        tr = dualRefreshTrace ∧
          u.available_disk_bytes = (env.disks.map (fun d => d.available_space)).sum) := by
  refine ⟨fun hw => ?_, fun hw hr => ?_, fun tr r h => ?_, fun tr u h => ?_⟩
  · constructor <;> simp [initial_info, periodic_update, system_update, hw]
  · constructor <;> simp [initial_info, periodic_update, system_update, hw, hr]
  · have hinv := initial_info_ok_inv id st env tr r h
    exact ⟨hinv.1, hinv.2.1⟩
  · have hinv := periodic_update_ok_inv st env tr u h
    exact ⟨hinv.1, hinv.2.2.2.1⟩

/-- An environment whose write-lock acquisition fails. -/
def envNoWriteLock : Env := ⟨false, true, [], []⟩

/-- C6 witness: with the write lock unavailable, both snapshot operations
fail with `SnapshotUnavailable`. -/
theorem snapshot_dual_refresh_disk_sums_lock_witness :
    initial_info uuid0 stZero envNoWriteLock =
        .err (.snapshotUnavailable "Failed to get read-write lock on System") ∧
      periodic_update stZero envNoWriteLock =
        .err (.snapshotUnavailable "Failed to get read-write lock on System") :=
  (snapshot_dual_refresh_disk_sums_lock uuid0 stZero envNoWriteLock).1 rfl

/-- Bound on the modelled `global_cpu_usage`: the average of per-CPU
percentages each within `[0, 100]` is itself within `[0, 100]` (an empty
CPU list yields `0/0 = 0` in `ℚ`). -/
theorem global_cpu_usage_bounds (st : SystemState)
    (h : ∀ c ∈ st.cpus, 0 ≤ c.usage ∧ c.usage ≤ 100) :
    0 ≤ global_cpu_usage st ∧ global_cpu_usage st ≤ 100 := by
  unfold global_cpu_usage
  by_cases hnil : st.cpus = []
  · simp [hnil]
  · have hpos : (0 : ℚ) < (st.cpus.length : ℚ) := by
      have := List.length_pos.mpr hnil
      exact_mod_cast this
    constructor
    · refine div_nonneg (List.sum_nonneg ?_) (le_of_lt hpos)
      intro x hx
      obtain ⟨c, hc, rfl⟩ := List.mem_map.mp hx
      exact (h c hc).1
    · rw [div_le_iff₀ hpos]
      have hsum : (st.cpus.map (fun c => c.usage)).sum ≤
          (st.cpus.map (fun c => c.usage)).length • (100 : ℚ) := by
        refine List.sum_le_card_nsmul _ 100 ?_
        intro x hx
        obtain ⟨c, hc, rfl⟩ := List.mem_map.mp hx
        exact (h c hc).2
      rw [List.length_map, nsmul_eq_mul] at hsum
      linarith

/-- C8: every successful `periodic_update` returns a report whose
`cpu_utilization` lies within the closed interval `[0, 100]` — the field
is the pass-through of `global_cpu_usage`, the average of the per-CPU
percentages, each of which the sampler keeps in `[0, 100]`. -/
theorem periodic_update_cpu_in_range (st : SystemState) (env : Env)
    (tr : List SysEvent) (u : CattleUpdate)
    (hcpus : ∀ c ∈ st.cpus, 0 ≤ c.usage ∧ c.usage ≤ 100)
    (hok : periodic_update st env = .ok (tr, u)) :
    0 ≤ u.cpu_utilization ∧ u.cpu_utilization ≤ 100 := by
  rw [(periodic_update_ok_inv st env tr u hok).2.1]
  exact global_cpu_usage_bounds st hcpus

/-- A system on which `periodic_update` fully succeeds: one process at
usage 5 owned by uid 0, two CPUs at 30% and 50%. -/
def stRun : SystemState :=
  ⟨[⟨1, 5, some 0, some "init"⟩], [⟨30, "b", "n"⟩, ⟨50, "b", "n"⟩],
    100, 50, some "linux", some "host", some "1", some "1.0", 42⟩

/-- An environment resolving uid 0 to "root", with one disk. -/
def envRun : Env := ⟨true, true, [⟨1000, 400⟩], [(0, some "root")]⟩

/-- The report `periodic_update stRun envRun` produces. -/
def updRun : CattleUpdate := ⟨40, 50, 400, 1, "init", "root"⟩

/-- C8 witness: the concrete successful run returns CPU utilization 40,
inside `[0, 100]`. -/
theorem periodic_update_cpu_in_range_witness :
    0 ≤ updRun.cpu_utilization ∧ updRun.cpu_utilization ≤ 100 :=
  periodic_update_cpu_in_range stRun envRun dualRefreshTrace updRun
    (by decide)
    (by norm_num [periodic_update, system_update, stRun, envRun, updRun,
      global_cpu_usage, selectTop, selStep, lookupProc, lookupUser])

/-- C10: `initial_info` treats unavailable host facts asymmetrically.
With both locks held: an unavailable hostname panics (the
`host_name().unwrap()`); an empty CPU list panics (the `cpus()[0]`
index); but in every successful report the OS name, OS version and long
OS version are the unavailable-tolerant `unwrap_or_default` substitutions
(empty string when the fact is `none`). -/
theorem initial_info_unavailable_asymmetry (id : Uuid) (st : SystemState)
    (env : Env) (hw : env.writeLockOk = true) (hr : env.readLockOk = true) :
    (st.host_name = none →
        initial_info id st env =
          .panicked "called Option::unwrap on a None value (host_name)") ∧
      (st.cpus = [] → ∀ hn, st.host_name = some hn →
        initial_info id st env = .panicked "index out of bounds: cpus is empty") ∧
      (∀ tr r, initial_info id st env = .ok (tr, r) →
        r.os_name = st.os_name.getD "" ∧
          r.os_version = st.os_version.getD "" ∧
          r.os_version_long = st.long_os_version.getD "") := by
  refine ⟨fun hhn => ?_, fun hc hn hhn => ?_, fun tr r h => ?_⟩
  · simp [initial_info, system_update, hw, hr, hhn]
  · simp [initial_info, system_update, hw, hr, hhn, hc]
  · have hinv := initial_info_ok_inv id st env tr r h
    exact ⟨hinv.2.2.1, hinv.2.2.2.1, hinv.2.2.2.2.1⟩

/-- A system whose hostname is unavailable. -/
def stNoHost : SystemState :=
  ⟨[⟨3, 0, some 0, some "a"⟩], [⟨10, "b", "n"⟩], 100, 50,
    some "linux", none, some "1", some "1.0", 42⟩

/-- C10 witness: with locks held and the hostname unavailable,
`initial_info` panics. -/
theorem initial_info_unavailable_asymmetry_witness :
    initial_info uuid0 stNoHost envOk =
      .panicked "called Option::unwrap on a None value (host_name)" :=
  (initial_info_unavailable_asymmetry uuid0 stNoHost envOk rfl rfl).1 rfl

/-- A system whose top process (usage 5, pid 1) is owned by uid 999. -/
def stOrphan : SystemState :=
  ⟨[⟨1, 5, some 999, some "proc"⟩], [⟨10, "b", "n"⟩], 100, 50,
    some "linux", some "host", some "1", some "1.0", 42⟩

/-- An environment whose user database has no entry for any uid. -/
def envNoUsers : Env := ⟨true, true, [], []⟩

/-- C1 (divergence evidence): when the owner of the selected top process
cannot be resolved — here uid 999 has no user-database entry, the race
the spec describes — `periodic_update` panics at
`users::get_user_by_uid(..).unwrap()` and aborts the whole snapshot; no
"unknown" fallback exists anywhere in the code and no
`PeriodicUpdateReport` is returned. -/
theorem periodic_update_owner_lookup_panics :
    periodic_update stOrphan envNoUsers =
      .panicked "called Option::unwrap on a None value (get_user_by_uid)" := by
  rfl

end Cattle
